import Mathlib

/-!
# Verification of the math-search relevance scoring and ranking engine

Shallow embedding of `src/math_search/relevance_calculation/relevance_calculator.py`
and `src/math_search/models/search_result.py`.

Modelling conventions:
* Python floats are modelled exactly: the boost/keyword pipeline (which only uses
  rational arithmetic) is modelled over `ℚ`; the TF-IDF similarity chain (which uses
  `math.log` and `math.sqrt`) is modelled over `ℝ`.
* Python strings are modelled as `String` / `List Char`; `str.lower` is modelled
  character-wise by `Char.toLower` (the ASCII fragment, which covers all table entries
  and the texts the engine compares them with).
* `datetime` timestamps are modelled as `ℤ` (they are only compared).
* Python dicts of weights are modelled as association lists in insertion order
  (Python dicts preserve insertion order; iteration and first-match lookups agree).
* Python sets of tokens are modelled as deduplicated lists (`List.dedup`);
  all quantities computed from them (cardinalities, products over elements)
  are order-independent.
-/

/-- `SearchResult` dataclass (`models/search_result.py`).  Field names follow the source. -/
structure SearchResult where
  title : String
  url : String
  snippet : String
  source : String
  relevance_score : ℚ
  timestamp : ℤ
  math_content_detected : Bool
deriving DecidableEq, Repr

/-- `SearchResult.__post_init__` validation, modelled as a fallible constructor:
`raise ValueError` becomes `Except.error`.  The checks are
`if not self.title or not self.url` and `if not 0 <= self.relevance_score <= 1`. -/
def mkSearchResult (title url snippet source : String) (relevance_score : ℚ)
    (timestamp : ℤ) (math_content_detected : Bool) : Except String SearchResult :=
  if title = "" ∨ url = "" then
    Except.error "标题和URL不能为空"
  else if ¬ (0 ≤ relevance_score ∧ relevance_score ≤ 1) then
    Except.error "相关度评分必须在0-1之间"
  else
    Except.ok ⟨title, url, snippet, source, relevance_score, timestamp, math_content_detected⟩

/-- The text the scorer derives from a result: `f"{result.title} {result.snippet}"`. -/
def textOf (r : SearchResult) : List Char :=
  r.title.toList ++ ' ' :: r.snippet.toList

/-- Character-wise `str.lower` (ASCII fragment of Python's `str.lower`). -/
def lowerText (cs : List Char) : List Char :=
  cs.map Char.toLower

/-- Python regex `\w`: alphanumeric or underscore (ASCII fragment). -/
def isWordChar (c : Char) : Bool :=
  c.isAlphanum || c = '_'

/-- `re.sub(r'[^\w\s]', ' ', text)` applied character-wise. -/
def cleanChar (c : Char) : Char :=
  if isWordChar c || c.isWhitespace then c else ' '

/-- `text.split()`: split on whitespace runs, dropping empty pieces.
The accumulator holds the current in-progress word, reversed. -/
def splitWsGo : List Char → List Char → List (List Char)
  | [], w => if w = [] then [] else [w.reverse]
  | c :: cs, w =>
    if c.isWhitespace then
      if w = [] then splitWsGo cs [] else w.reverse :: splitWsGo cs []
    else
      splitWsGo cs (c :: w)

/-- `RelevanceCalculator._tokenize_text`: replace every character that is not
alphanumeric/underscore/whitespace by a space, split on whitespace, drop empties
(the source's `word.strip()` is a no-op after `split()`). -/
def tokenize_text (text : List Char) : List (List Char) :=
  splitWsGo (text.map cleanChar) []

/-- Python's substring test `needle in hay` for strings. -/
def containsSub (needle : List Char) : List Char → Bool
  | [] => needle.isEmpty
  | c :: cs => needle.isPrefixOf (c :: cs) || containsSub needle (cs)

/-- Auxiliary scan for `countSubstr`: non-overlapping left-to-right counting of the
pattern `n :: ns`.  `fuel` only enforces structural (hence kernel-reducible)
recursion; it is initialized with the haystack length, which every scan step
decreases by at least one, so the zero-fuel case is never reached on a nonempty
haystack. -/
def countOcc (n : Char) (ns : List Char) : Nat → List Char → Nat
  | _, [] => 0
  | 0, _ :: _ => 0
  | fuel + 1, c :: cs =>
    if (n :: ns).isPrefixOf (c :: cs) then
      countOcc n ns fuel (cs.drop ns.length) + 1
    else
      countOcc n ns fuel cs

/-- Python `hay.count(needle)`: non-overlapping occurrences
(`''.count` conventions included for totality). -/
def countSubstr (needle hay : List Char) : Nat :=
  match needle with
  | [] => hay.length + 1
  | n :: ns => countOcc n ns hay.length hay

/-- Auxiliary scan for `boundaryCount`: counts non-overlapping matches of the
pattern `n :: ns` that sit at `\b` word boundaries on both sides; `prev` is the
character immediately before the current position (`none` at the start).
`fuel` as in `countOcc`. -/
def boundaryOcc (n : Char) (ns : List Char) : Nat → Option Char → List Char → Nat
  | _, _, [] => 0
  | 0, _, _ :: _ => 0
  | fuel + 1, prev, c :: cs =>
    let startOk := match prev with
      | none => true
      | some p => !isWordChar p
    let endOk := match cs.drop ns.length with
      | [] => true
      | r :: _ => !isWordChar r
    if startOk && (n :: ns).isPrefixOf (c :: cs) && endOk then
      boundaryOcc n ns fuel (some (ns.getLastD n)) (cs.drop ns.length) + 1
    else
      boundaryOcc n ns fuel (some c) cs

/-- `len(re.findall(r'\b' + re.escape(term) + r'\b', text))` for an alphanumeric
single-word `term` (the only shape the source uses it for). -/
def boundaryCount (needle hay : List Char) : Nat :=
  match needle with
  | [] => 0
  | n :: ns => boundaryOcc n ns hay.length none hay

/-- Auxiliary scan for `removeAllSub`: removes non-overlapping occurrences of
`n :: ns` left to right, as Python's `hay.replace(needle, '')` would.
`fuel` as in `countOcc`. -/
def removeAllGo (n : Char) (ns : List Char) : Nat → List Char → List Char
  | _, [] => []
  | 0, l => l
  | fuel + 1, c :: cs =>
    if (n :: ns).isPrefixOf (c :: cs) then
      removeAllGo n ns fuel (cs.drop ns.length)
    else
      c :: removeAllGo n ns fuel cs

/-- Python `hay.replace(needle, '')` (left-to-right, non-overlapping). -/
def removeAllSub (needle hay : List Char) : List Char :=
  match needle with
  | [] => hay
  | n :: ns => removeAllGo n ns hay.length hay

/-- `self.stop_words` (the source set literal, which lists `'the'` twice;
only membership is ever used, so the duplicate is irrelevant). -/
def stop_words : List String :=
  ["a", "an", "and", "are", "as", "at", "be", "by", "for", "from",
   "has", "he", "in", "is", "it", "its", "of", "on", "that", "the",
   "to", "was", "will", "with", "the", "this", "but", "they", "have",
   "had", "what", "said", "each", "which", "their", "time", "if"]

/-- `self.math_terms_weights`, in source (insertion) order. -/
def math_terms_weights : List (String × ℚ) :=
  [("algebra", 16/10), ("calculus", 16/10), ("geometry", 16/10), ("topology", 17/10),
   ("analysis", 17/10), ("statistics", 15/10), ("probability", 15/10),
   ("combinatorics", 16/10), ("number theory", 17/10), ("differential equations", 16/10),
   ("linear algebra", 16/10), ("abstract algebra", 17/10), ("real analysis", 18/10),
   ("complex analysis", 18/10), ("functional analysis", 18/10),
   ("algebraic geometry", 18/10), ("differential geometry", 18/10),
   ("theorem", 14/10), ("lemma", 13/10), ("corollary", 13/10), ("proof", 13/10),
   ("axiom", 14/10), ("definition", 12/10), ("proposition", 13/10),
   ("conjecture", 15/10), ("hypothesis", 13/10),
   ("function", 13/10), ("derivative", 14/10), ("integral", 14/10), ("limit", 14/10),
   ("matrix", 13/10), ("vector", 13/10), ("polynomial", 13/10), ("logarithm", 13/10),
   ("exponential", 13/10), ("trigonometry", 14/10), ("sine", 12/10), ("cosine", 12/10),
   ("tangent", 12/10), ("series", 14/10), ("sequence", 13/10), ("convergence", 14/10),
   ("divergence", 14/10),
   ("formula", 13/10), ("equation", 13/10), ("inequality", 13/10),
   ("optimization", 14/10), ("algorithm", 13/10), ("method", 12/10),
   ("technique", 12/10), ("approximation", 13/10), ("iteration", 13/10),
   ("manifold", 18/10), ("homomorphism", 18/10), ("isomorphism", 18/10),
   ("eigenvalue", 15/10), ("eigenvector", 15/10), ("fourier", 16/10),
   ("laplace", 16/10), ("transform", 14/10), ("group theory", 17/10),
   ("ring theory", 17/10), ("field theory", 17/10), ("category theory", 19/10),
   ("measure theory", 18/10), ("operator theory", 18/10),
   ("model", 12/10), ("simulation", 13/10), ("numerical", 14/10),
   ("computational", 14/10), ("applied", 13/10), ("mathematical modeling", 15/10),
   ("mathematical physics", 16/10), ("operations research", 14/10),
   ("logic", 15/10), ("set theory", 16/10), ("mathematical logic", 17/10),
   ("foundations", 16/10), ("axiomatics", 16/10)]

/-- `self.academic_sources`, in source (insertion) order. -/
def academic_sources : List (String × ℚ) :=
  [("arxiv.org", 19/10), ("mathscinet.ams.org", 19/10), ("zbmath.org", 18/10),
   ("mathworld.wolfram.com", 18/10), ("planetmath.org", 17/10),
   ("mathoverflow.net", 17/10), ("math.stackexchange.com", 16/10),
   ("mit.edu", 18/10), ("stanford.edu", 18/10), ("harvard.edu", 18/10),
   ("princeton.edu", 18/10), ("caltech.edu", 18/10), ("berkeley.edu", 17/10),
   ("cmu.edu", 17/10), ("yale.edu", 17/10), ("columbia.edu", 17/10),
   ("uchicago.edu", 17/10),
   ("cambridge.ac.uk", 17/10), ("ox.ac.uk", 17/10), ("imperial.ac.uk", 16/10),
   ("ethz.ch", 17/10), ("ens.fr", 17/10), ("u-tokyo.ac.jp", 16/10),
   ("springer.com", 16/10), ("elsevier.com", 16/10), ("wiley.com", 15/10),
   ("cambridge.org", 16/10), ("jstor.org", 17/10), ("projecteuclid.org", 17/10),
   ("ams.org", 18/10),
   ("khanacademy.org", 14/10), ("coursera.org", 13/10), ("edx.org", 13/10),
   ("brilliant.org", 14/10),
   ("wikipedia.org", 13/10), ("scholarpedia.org", 14/10), ("nist.gov", 15/10),
   ("wolfram.com", 15/10), ("mathworks.com", 14/10), ("sagemath.org", 14/10),
   ("sympy.org", 14/10),
   ("artofproblemsolving.com", 14/10), ("imo-official.org", 15/10),
   ("maa.org", 16/10), ("siam.org", 16/10), ("ieee.org", 15/10)]

/-- `math_terms_weights` with keys as character lists (tokens compare as `List Char`). -/
def mathTermsWeightsL : List (List Char × ℚ) :=
  math_terms_weights.map (fun p => (p.1.toList, p.2))

/-- `academic_sources` with keys as character lists. -/
def academicSourcesL : List (List Char × ℚ) :=
  academic_sources.map (fun p => (p.1.toList, p.2))

/-- `advanced_concepts` local list of `_get_math_domain_depth_boost`. -/
def advanced_concepts : List String :=
  ["manifold", "topology", "homomorphism", "isomorphism",
   "eigenvalue", "eigenvector", "fourier", "laplace",
   "differential equations", "number theory", "analysis",
   "abstract algebra", "real analysis", "complex analysis",
   "functional analysis", "measure theory", "category theory"]

/-- `research_keywords` local list of `_get_math_domain_depth_boost`. -/
def research_keywords : List String :=
  ["theorem", "proof", "lemma", "corollary", "conjecture",
   "axiom", "proposition", "research", "paper", "journal",
   "publication", "study", "investigation", "novel", "new"]

/-- The math-symbol set of `_get_math_domain_depth_boost`
(each Python `symbol` is a one-character string, so `symbol in text`
is character membership). -/
def mathSymbols : List Char :=
  ['∫', '∑', '∂', '∇', '∞', '≤', '≥', '≠', '±']

/-- `advanced_terms` local list of `_calculate_math_term_cooccurrence`. -/
def advanced_terms_cooccurrence : List String :=
  ["manifold", "homomorphism", "isomorphism", "topology",
   "category theory", "measure theory", "functional analysis",
   "real analysis", "complex analysis", "abstract algebra",
   "algebraic geometry", "differential geometry", "operator theory"]

/-- `academic_indicators` local dict of `_get_academic_level_boost`, in source order. -/
def academic_indicators : List (String × ℚ) :=
  [("phd", 14/10), ("doctorate", 14/10), ("professor", 13/10), ("research", 13/10),
   ("university", 12/10), ("college", 11/10),
   ("journal", 14/10), ("paper", 13/10), ("article", 12/10), ("publication", 13/10),
   ("proceedings", 13/10), ("conference", 12/10),
   ("graduate", 13/10), ("undergraduate", 11/10), ("advanced", 12/10),
   ("introduction", 10/10), ("basic", 9/10), ("elementary", 8/10),
   ("course", 11/10), ("lecture", 12/10), ("seminar", 13/10), ("workshop", 11/10),
   ("tutorial", 10/10)]

/-- `academic_indicators` with keys as character lists. -/
def academicIndicatorsL : List (List Char × ℚ) :=
  academic_indicators.map (fun p => (p.1.toList, p.2))

/-- `complexity_indicators` local dict of `_calculate_mathematical_complexity_score`. -/
def complexity_indicators : List (String × ℚ) :=
  [("proof", 20/10), ("theorem", 20/10), ("lemma", 18/10), ("corollary", 18/10),
   ("conjecture", 22/10),
   ("homomorphism", 25/10), ("isomorphism", 25/10), ("manifold", 23/10),
   ("topology", 21/10), ("category theory", 28/10), ("measure theory", 24/10),
   ("functional analysis", 26/10), ("real analysis", 24/10),
   ("complex analysis", 24/10), ("differential equations", 22/10),
   ("abstract algebra", 23/10), ("group theory", 22/10), ("ring theory", 22/10),
   ("field theory", 22/10),
   ("algebraic geometry", 27/10), ("differential geometry", 25/10),
   ("algebra", 12/10), ("calculus", 13/10), ("geometry", 11/10),
   ("statistics", 10/10), ("probability", 11/10)]

/-- `complexity_indicators` with keys as character lists. -/
def complexityIndicatorsL : List (List Char × ℚ) :=
  complexity_indicators.map (fun p => (p.1.toList, p.2))

/-- The `.edu`-style URL markers of `_get_academic_level_boost`. -/
def eduMarkers : List String :=
  [".edu", ".ac.", "university", "college"]

/-! ## Keyword matching and title boost (`_calculate_keyword_matching`, `_calculate_title_boost`) -/

/-- `_calculate_keyword_matching(query, result)`: token-set overlap ratio between the
lowercased query and `f"{title} {snippet}".lower()`, multiplied by the weight of every
intersecting term found in `math_terms_weights`, clamped to at most `1.0`.
Python sets are modelled by `dedup` lists; the product over the intersection is
order-independent. -/
def calculate_keyword_matching (query : String) (r : SearchResult) : ℚ :=
  let query_words := (tokenize_text (lowerText query.toList)).dedup
  let result_words := (tokenize_text (lowerText (textOf r))).dedup
  if query_words = [] then 0
  else
    let intersection := query_words.filter (fun w => result_words.contains w)
    let overlap_ratio : ℚ := (intersection.length : ℚ) / (query_words.length : ℚ)
    let math_term_boost : ℚ := intersection.foldl
      (fun b t =>
        match mathTermsWeightsL.find? (fun p => p.1 = t) with
        | some p => b * p.2
        | none => b) 1
    min (overlap_ratio * math_term_boost) 1

/-- `_calculate_title_boost(query, title)`: `1 + 0.3 ×` (fraction of query tokens that
also occur in the title); `1.0` for a token-free query. -/
def calculate_title_boost (query : String) (title : String) : ℚ :=
  let query_words := (tokenize_text (lowerText query.toList)).dedup
  let title_words := (tokenize_text (lowerText title.toList)).dedup
  if query_words = [] then 1
  else
    let intersection := query_words.filter (fun w => title_words.contains w)
    let title_match_ratio : ℚ := (intersection.length : ℚ) / (query_words.length : ℚ)
    1 + title_match_ratio * (3/10)

/-! ## Domain boost engine -/

/-- `_get_source_boost(url)`: weight of the first academic domain that is a substring
of the lowercased url, else `1.0`. -/
def get_source_boost (url : String) : ℚ :=
  match academicSourcesL.find? (fun p => containsSub p.1 (lowerText url.toList)) with
  | some p => p.2
  | none => 1

/-- `_calculate_math_term_density(text)`: the tiered density factor; multi-word terms
are counted as plain substrings, single-word terms with `\b` boundaries. -/
def calculate_math_term_density (text : List Char) : ℚ :=
  let words := tokenize_text text
  if words = [] then 1
  else
    let text_lower := lowerText text
    let math_term_count : ℕ := mathTermsWeightsL.foldl
      (fun n p =>
        if containsSub p.1 text_lower then
          if p.1.contains ' ' then n + countSubstr p.1 text_lower
          else n + boundaryCount p.1 text_lower
        else n) 0
    let density : ℚ :=
      if 0 < words.length then (math_term_count : ℚ) / (words.length : ℚ) else 0
    if 4/10 ≤ density then 13/10
    else if 25/100 ≤ density then 125/100
    else if 15/100 ≤ density then 12/10
    else if 5/100 ≤ density then 11/10
    else 1

/-- `_calculate_math_term_cooccurrence(text)`: tiered factor from the number of
advanced terms present. -/
def calculate_math_term_cooccurrence (text : List Char) : ℚ :=
  let cooccurring := advanced_terms_cooccurrence.filter (fun s => containsSub s.toList text)
  if 3 ≤ cooccurring.length then 7/5
  else if cooccurring.length = 2 then 6/5
  else if cooccurring.length = 1 then 11/10
  else 1

/-- `_get_math_terms_boost(text)`: per-term compounding times density and
co-occurrence factors, capped at `2.5`. -/
def get_math_terms_boost (text : List Char) : ℚ :=
  let text_lower := lowerText text
  let boost : ℚ := mathTermsWeightsL.foldl
    (fun b p =>
      if containsSub p.1 text_lower then
        b * (1 + (p.2 - 1) * (countSubstr p.1 text_lower : ℚ) * (1/10))
      else b) 1
  let boost := boost * calculate_math_term_density text_lower
  let boost := boost * calculate_math_term_cooccurrence text_lower
  min boost (25/10)

/-- `_get_math_domain_depth_boost(text)`: advanced-concept count, research-keyword
count, math-symbol and LaTeX-marker factors, capped at `1.8`.  The symbol and
`$`/`\` checks run on the raw `text`, the term scans on `text.lower()`,
as in the source. -/
def get_math_domain_depth_boost (text : List Char) : ℚ :=
  let text_lower := lowerText text
  let advanced_count := (advanced_concepts.filter (fun s => containsSub s.toList text_lower)).length
  let d1 : ℚ := if 0 < advanced_count then 1 * (1 + (advanced_count : ℚ) * (15/100)) else 1
  let research_count := (research_keywords.filter (fun s => containsSub s.toList text_lower)).length
  let d2 : ℚ := if 0 < research_count then d1 * (1 + (research_count : ℚ) * (1/10)) else d1
  let d3 : ℚ := if mathSymbols.any (fun c => text.contains c) then d2 * (12/10) else d2
  let d4 : ℚ := if text.contains '$' || text.contains '\\' then d3 * (115/100) else d3
  min d4 (18/10)

/-- `_get_academic_level_boost(result)`: product over matched academic indicators in
`f"{title} {snippet}".lower()`, times `1.2` for education-domain urls,
clamped into `[0.8, 1.6]`. -/
def get_academic_level_boost (r : SearchResult) : ℚ :=
  let text := lowerText (textOf r)
  let boost : ℚ := academicIndicatorsL.foldl
    (fun b p => if containsSub p.1 text then b * p.2 else b) 1
  let url_lower := lowerText r.url.toList
  let boost : ℚ :=
    if eduMarkers.any (fun s => containsSub s.toList url_lower) then boost * (12/10) else boost
  min (max boost (8/10)) (16/10)

/-- `_calculate_mathematical_complexity_score(text)`: average complexity weight of the
matched indicators, transformed by `1 + (avg - 1) × 0.3` and capped at `2.0`;
`1.0` when nothing matches.  The accumulator pairs `total_complexity` with
`term_count`. -/
def calculate_mathematical_complexity_score (text : List Char) : ℚ :=
  let text_lower := lowerText text
  let tc : ℚ × ℕ := complexityIndicatorsL.foldl
    (fun acc p => if containsSub p.1 text_lower then (acc.1 + p.2, acc.2 + 1) else acc)
    (0, 0)
  if tc.2 = 0 then 1
  else
    let avg_complexity : ℚ := tc.1 / (tc.2 : ℚ)
    min (1 + (avg_complexity - 1) * (3/10)) 2

/-- `apply_math_domain_boost(results)`: a new list, in order, where each candidate's
`relevance_score` is replaced by `min(score × total_boost, 1.0)`; the six factors and
their multiplication order follow the source.  The source's field-by-field copy
followed by a score overwrite is the record update. -/
def apply_math_domain_boost (results : List SearchResult) : List SearchResult :=
  results.map (fun r =>
    let source_boost := get_source_boost r.url
    let math_content_boost : ℚ := if r.math_content_detected then 115/100 else 1
    let math_terms_boost := get_math_terms_boost (textOf r)
    let domain_depth_boost := get_math_domain_depth_boost (textOf r)
    let complexity_boost := calculate_mathematical_complexity_score (textOf r)
    let academic_level_boost := get_academic_level_boost r
    let total_boost :=
      source_boost * math_content_boost * math_terms_boost *
        domain_depth_boost * complexity_boost * academic_level_boost
    { r with relevance_score := min (r.relevance_score * total_boost) 1 })

/-! ## Ranking (`rank_results`) -/

/-- One lexicographic layer: Python tuple comparison
`(a1, a2) <= (b1, b2)  iff  a1 < b1 or (a1 = b1 and a2 <= b2)`. -/
def lexLe {α β : Type} [LT α] (le2 : β → β → Prop) (a b : α × β) : Prop :=
  a.1 < b.1 ∨ (a.1 = b.1 ∧ le2 a.2 b.2)

instance {α β : Type} [LinearOrder α] (le2 : β → β → Prop) [DecidableRel le2] :
    DecidableRel (@lexLe α β _ le2) := fun a b => by
  unfold lexLe
  exact inferInstance

/-- The sort key of `rank_results`: `(relevance_score, 1 if math_content_detected
else 0, source boost of the url, timestamp)`. -/
def sort_key (r : SearchResult) : ℚ × ℕ × ℚ × ℤ :=
  (r.relevance_score,
   (if r.math_content_detected then 1 else 0),
   get_source_boost r.url,
   r.timestamp)

/-- Python's lexicographic `<=` on the 4-component sort key. -/
def keyTupleLe : ℚ × ℕ × ℚ × ℤ → ℚ × ℕ × ℚ × ℤ → Prop :=
  lexLe (lexLe (lexLe (fun x y : ℤ => x ≤ y)))

instance : DecidableRel keyTupleLe := fun a b =>
  inferInstanceAs (Decidable (lexLe (lexLe (lexLe (fun x y : ℤ => x ≤ y))) a b))

/-- `rank_results(results)`: `sorted(results, key=..., reverse=True)`, modelled as a
stable merge sort with the descending comparison `key b <= key a`. -/
def rank_results (results : List SearchResult) : List SearchResult :=
  results.mergeSort (fun a b => decide (keyTupleLe (sort_key b) (sort_key a)))

/-! ## Metrics reporter (`get_advanced_sorting_metrics`) -/

/-- One diagnostic record of `get_advanced_sorting_metrics` (the Python dict,
as a record; the float entries are `ℚ`). -/
structure SortingMetric where
  base_relevance : ℚ
  source_boost : ℚ
  math_terms_boost : ℚ
  domain_depth_boost : ℚ
  complexity_boost : ℚ
  academic_level_boost : ℚ
  math_content_detected : Bool
  url : String
  title : String
  total_boost : ℚ
  final_score : ℚ
deriving DecidableEq, Repr

/-- `get_advanced_sorting_metrics(results)`: one record per input, in input order;
`total_boost` multiplies the five replayed factors and the `1.15/1.0` math-content
factor (in the source's own order), `final_score = min(base × total_boost, 1.0)`. -/
def get_advanced_sorting_metrics (results : List SearchResult) : List SortingMetric :=
  results.map (fun r =>
    let text := textOf r
    let source_boost := get_source_boost r.url
    let math_terms_boost := get_math_terms_boost text
    let domain_depth_boost := get_math_domain_depth_boost text
    let complexity_boost := calculate_mathematical_complexity_score text
    let academic_level_boost := get_academic_level_boost r
    let total_boost :=
      source_boost * math_terms_boost * domain_depth_boost * complexity_boost *
        academic_level_boost * (if r.math_content_detected then 115/100 else 1)
    { base_relevance := r.relevance_score
      source_boost := source_boost
      math_terms_boost := math_terms_boost
      domain_depth_boost := domain_depth_boost
      complexity_boost := complexity_boost
      academic_level_boost := academic_level_boost
      math_content_detected := r.math_content_detected
      url := r.url
      title := if 50 < r.title.length then String.mk (r.title.toList.take 50) ++ "..." else r.title
      total_boost := total_boost
      final_score := min (r.relevance_score * total_boost) 1 })

/-- The spec's "same candidate with those terms stripped from the snippet":
remove every occurrence of every recognized math term from a text
(table order, each term removed as by `str.replace(term, '')`). -/
def strip_math_terms (s : List Char) : List Char :=
  mathTermsWeightsL.foldl (fun acc p => removeAllSub p.1 acc) s

/-! ## TF-IDF similarity (`_custom_tfidf_similarity`, `_cosine_similarity`)

`math.log` and `math.sqrt` force this part of the embedding into `ℝ`. -/

/-- The filtered token lists of `_custom_tfidf_similarity`:
`[w for w in tokenize(text.lower()) if w not in stop_words and len(w) > 1]`. -/
def filtered_words (text : List Char) : List (List Char) :=
  (tokenize_text (lowerText text)).filter
    (fun w => !((stop_words.map String.toList).contains w) && decide (1 < w.length))

/-- Normalized term frequency: `tf.get(word, 0) / len(words) if len(words) > 0 else 0`. -/
def tf_value (ws : List (List Char)) (w : List Char) : ℚ :=
  if 0 < ws.length then (ws.count w : ℚ) / (ws.length : ℚ) else 0

/-- Document frequency over the two documents:
`(1 if tf1.get(word, 0) > 0 else 0) + (1 if tf2.get(word, 0) > 0 else 0)`. -/
def doc_freq (ws1 ws2 : List (List Char)) (w : List Char) : ℕ :=
  (if 0 < ws1.count w then 1 else 0) + (if 0 < ws2.count w then 1 else 0)

/-- `idf = math.log(2 / df) if df > 0 else 0`. -/
noncomputable def inv_doc_freq (ws1 ws2 : List (List Char)) (w : List Char) : ℝ :=
  if 0 < doc_freq ws1 ws2 w then Real.log (2 / (doc_freq ws1 ws2 w : ℝ)) else 0

/-- One TF-IDF vector entry: `tf_val * (1 + idf)`; `wsDoc` is the document the
entry belongs to, `ws1 ws2` the two documents defining the idf. -/
noncomputable def tfidf_entry (ws1 ws2 wsDoc : List (List Char)) (w : List Char) : ℝ :=
  (tf_value wsDoc w : ℝ) * (1 + inv_doc_freq ws1 ws2 w)

/-- The L2 norm used by `_cosine_similarity`: `math.sqrt(sum(vec(w) ** 2))`. -/
noncomputable def vec_norm (vec : List Char → ℝ) (words : Finset (List Char)) : ℝ :=
  Real.sqrt (∑ w ∈ words, vec w ^ 2)

open Classical in
/-- `_cosine_similarity(vec1, vec2, words)`: dot product over the vocabulary divided by
the product of the L2 norms; `0.0` when either norm is zero. -/
noncomputable def cosine_similarity (vec1 vec2 : List Char → ℝ)
    (words : Finset (List Char)) : ℝ :=
  let dot_product := ∑ w ∈ words, vec1 w * vec2 w
  let norm1 := vec_norm vec1 words
  let norm2 := vec_norm vec2 words
  if norm1 = 0 ∨ norm2 = 0 then 0 else dot_product / (norm1 * norm2)

/-- `all_words = set(words1 + words2)`. -/
def all_words (ws1 ws2 : List (List Char)) : Finset (List Char) :=
  (ws1 ++ ws2).toFinset

/-- `_custom_tfidf_similarity(text1, text2)`. -/
noncomputable def custom_tfidf_similarity (text1 text2 : List Char) : ℝ :=
  let words1 := filtered_words text1
  let words2 := filtered_words text2
  if words1 = [] ∨ words2 = [] then 0
  else if all_words words1 words2 = ∅ then 0
  else
    cosine_similarity (tfidf_entry words1 words2 words1) (tfidf_entry words1 words2 words2)
      (all_words words1 words2)

/-- `_calculate_word_overlap(text1, text2)`: the Jaccard fallback of
`_calculate_tfidf_similarity`'s `except` branch (unreachable in this total
embedding, modelled for completeness). -/
def calculate_word_overlap (text1 text2 : List Char) : ℚ :=
  let words1 := (tokenize_text (lowerText text1)).dedup
  let words2 := (tokenize_text (lowerText text2)).dedup
  if words1 = [] ∨ words2 = [] then 0
  else
    let intersection := words1.filter (fun w => words2.contains w)
    let union := (words1 ++ words2).dedup
    if union = [] then 0 else (intersection.length : ℚ) / (union.length : ℚ)

/-- `_calculate_tfidf_similarity(query, result)`: the `try` body; every function in
the chain is total here, so the `except`-fallback to `_calculate_word_overlap`
cannot trigger. -/
noncomputable def calculate_tfidf_similarity (query : String) (r : SearchResult) : ℝ :=
  custom_tfidf_similarity query.toList (textOf r)

/-- `calculate_relevance(query, result)`: the combined, clamped base relevance.
A pure function of `(query, result)`; it returns the score and leaves the record
untouched (mutation does not exist in this embedding). -/
noncomputable def calculate_relevance (query : String) (r : SearchResult) : ℝ :=
  let tfidf_score := calculate_tfidf_similarity query r
  let keyword_score : ℝ := (calculate_keyword_matching query r : ℚ)
  let math_boost : ℝ := if r.math_content_detected then 12/10 else 1
  let title_boost : ℝ := (calculate_title_boost query r.title : ℚ)
  let combined_score :=
    (tfidf_score * (4/10) + keyword_score * (4/10) + 2/10) * math_boost * title_boost
  min (max combined_score 0) 1

/-- The spec's own formula for §4.4 (for the refinement claim C2), written from the
spec's words: `combined = (similarity*0.4 + keyword_score*0.4 + 0.2) ×
math_content_multiplier × title_boost`, `math_content_multiplier = 1.2` iff
`math_content_detected`, title boost `= 1 + 0.3 × (fraction of query tokens present
in the title)`, final result clamped to `[0, 1]`. -/
noncomputable def calculate_relevance_spec (query : String) (r : SearchResult) : ℝ :=
  let similarity := calculate_tfidf_similarity query r
  let keyword_score : ℝ := (calculate_keyword_matching query r : ℚ)
  let math_content_multiplier : ℝ := if r.math_content_detected then 12/10 else 1
  let title_boost : ℝ := (calculate_title_boost query r.title : ℚ)
  min (max ((similarity * (4/10) + keyword_score * (4/10) + 2/10) *
    math_content_multiplier * title_boost) 0) 1

/-- A candidate that satisfies the `SearchResult.__post_init__` validation invariant. -/
def ValidResult (r : SearchResult) : Prop :=
  r.title ≠ "" ∧ r.url ≠ "" ∧ 0 ≤ r.relevance_score ∧ r.relevance_score ≤ 1

instance (r : SearchResult) : Decidable (ValidResult r) := by
  unfold ValidResult
  exact inferInstance

/-! ## Generic helper lemmas -/

/-- A property preserved by every step of a fold holds for the fold. -/
theorem foldlPreserve {α β : Type} (P : β → Prop) (f : β → α → β) :
    ∀ (l : List α) (b : β), P b → (∀ b' a, a ∈ l → P b' → P (f b' a)) → P (l.foldl f b)
  | [], _, hb, _ => hb
  | a :: l, b, hb, hstep =>
    foldlPreserve P f l (f b a) (hstep b a (by simp) hb)
      (fun b' x hx hb' => hstep b' x (by simp [hx]) hb')

/-- Folds of functions that agree on the list's members agree. -/
theorem foldlCongrMem {α β : Type} (f g : β → α → β) :
    ∀ (l : List α) (b : β), (∀ b' a, a ∈ l → f b' a = g b' a) → l.foldl f b = l.foldl g b
  | [], _, _ => rfl
  | a :: l, b, h => by
    simp only [List.foldl_cons]
    rw [h b a (by simp)]
    exact foldlCongrMem f g l (g b a) (fun b' x hx => h b' x (by simp [hx]))

/-- A fold whose steps all fix the accumulator returns the initial value. -/
theorem foldlFix {α β : Type} (f : β → α → β) :
    ∀ (l : List α) (b : β), (∀ b' a, a ∈ l → f b' a = b') → l.foldl f b = b
  | [], _, _ => rfl
  | a :: l, b, h => by
    simp only [List.foldl_cons, h b a (by simp)]
    exact foldlFix f l b (fun b' x hx => h b' x (by simp [hx]))

/-- A pointwise-weaker filter keeps at most as many elements. -/
theorem filterLengthMono {α : Type} (p q : α → Bool) :
    ∀ l : List α, (∀ a ∈ l, p a = true → q a = true) →
      (l.filter p).length ≤ (l.filter q).length
  | [], _ => le_refl _
  | a :: l, h => by
    have ih := filterLengthMono p q l (fun x hx => h x (by simp [hx]))
    simp only [List.filter_cons]
    by_cases hp : p a = true
    · rw [if_pos hp, if_pos (h a (by simp) hp)]
      simpa using ih
    · rw [if_neg hp]
      by_cases hq : q a = true
      · rw [if_pos hq]
        exact ih.trans (by simp)
      · rw [if_neg hq]
        exact ih

/-- `Char.ofNat` evaluates to its argument on valid codepoints. -/
theorem toNatOfNatValid {n : ℕ} (h : n.isValidChar) : (Char.ofNat n).toNat = n := by
  rw [Char.ofNat, dif_pos h]
  rfl

/-- `Char.toLower` fixes characters outside `A`–`Z`. -/
theorem toLowerFix (d : Char) (h : ¬ (d.toNat ≥ 65 ∧ d.toNat ≤ 90)) : d.toLower = d := by
  show (if d.toNat ≥ 65 ∧ d.toNat ≤ 90 then Char.ofNat (d.toNat + 32) else d) = d
  rw [if_neg h]

/-- `Char.toLower` on `A`–`Z` adds 32. -/
theorem toLowerHigh (c : Char) (h : c.toNat ≥ 65 ∧ c.toNat ≤ 90) :
    c.toLower = Char.ofNat (c.toNat + 32) := by
  show (if c.toNat ≥ 65 ∧ c.toNat ≤ 90 then Char.ofNat (c.toNat + 32) else c) = _
  rw [if_pos h]

/-- `Char.toLower` is idempotent. -/
theorem charToLowerIdem (c : Char) : c.toLower.toLower = c.toLower := by
  by_cases h : c.toNat ≥ 65 ∧ c.toNat ≤ 90
  · have h3 : c.toLower.toNat = c.toNat + 32 := by
      rw [toLowerHigh c h]
      exact toNatOfNatValid (Or.inl (by omega))
    exact toLowerFix c.toLower (by omega)
  · rw [toLowerFix c h]
    exact toLowerFix c h

/-- Lowercasing a text is idempotent. -/
theorem lowerTextIdem (t : List Char) : lowerText (lowerText t) = lowerText t := by
  induction t with
  | nil => rfl
  | cons c cs ih =>
    simp only [lowerText, List.map_cons, List.cons.injEq] at ih ⊢
    exact ⟨charToLowerIdem c, ih⟩

/-! ## Facts about the static weight tables -/

/-- Every math-term weight is at least 1. -/
theorem mathTermsWeightsGeOne : ∀ p ∈ mathTermsWeightsL, (1 : ℚ) ≤ p.2 := by
  with_unfolding_all decide

/-- Every academic-source weight is at least 1. -/
theorem academicSourcesGeOne : ∀ p ∈ academicSourcesL, (1 : ℚ) ≤ p.2 := by
  with_unfolding_all decide

/-- Every complexity indicator weight is at least 1. -/
theorem complexityIndicatorsGeOne : ∀ p ∈ complexityIndicatorsL, (1 : ℚ) ≤ p.2 := by
  with_unfolding_all decide

/-- Every advanced concept of the depth boost is a recognized math term. -/
theorem advancedConceptsSubMathTerms :
    ∀ s ∈ advanced_concepts, ∃ p ∈ mathTermsWeightsL, p.1 = s.toList := by decide

/-- Every advanced term of the co-occurrence factor is a recognized math term. -/
theorem advancedCooccurrenceSubMathTerms :
    ∀ s ∈ advanced_terms_cooccurrence, ∃ p ∈ mathTermsWeightsL, p.1 = s.toList := by decide

/-- Every complexity indicator key is a recognized math term. -/
theorem complexityKeysSubMathTerms :
    ∀ p ∈ complexityIndicatorsL, ∃ q ∈ mathTermsWeightsL, q.1 = p.1 := by decide

/-! ## Bounds for the scoring components -/

/-- Product of two quantities that are at least one. -/
theorem oneLeMulQ {a b : ℚ} (ha : 1 ≤ a) (hb : 1 ≤ b) : 1 ≤ a * b := by nlinarith

/-- `1 ≤ if c then X * k else X` when both `X` and `k` are at least one. -/
theorem oneLeIteMul {X k : ℚ} (c : Prop) [Decidable c] (hX : 1 ≤ X) (hk : 1 ≤ k) :
    1 ≤ if c then X * k else X := by
  split
  · exact oneLeMulQ hX hk
  · exact hX

/-- The keyword-matching score is nonnegative. -/
theorem keywordMatchingNonneg (q : String) (r : SearchResult) :
    0 ≤ calculate_keyword_matching q r := by
  simp only [calculate_keyword_matching]
  split
  · exact le_refl 0
  · refine le_min ?_ (by norm_num)
    refine mul_nonneg (div_nonneg (by positivity) (by positivity)) ?_
    refine le_trans zero_le_one ?_
    refine foldlPreserve (fun b => 1 ≤ b) _ _ 1 (le_refl 1) ?_
    intro b t _ hb
    cases hfind : mathTermsWeightsL.find? (fun p => p.1 = t) with
    | none => simpa [hfind] using hb
    | some p =>
      simp only [hfind]
      exact oneLeMulQ hb (mathTermsWeightsGeOne p (List.mem_of_find?_eq_some hfind))

/-- `1 ≤ 1 + (a/b) * 0.3` for natural `a`, `b`. -/
theorem oneLeOneAddFrac (a b : ℕ) : (1 : ℚ) ≤ 1 + (a : ℚ) / (b : ℚ) * (3/10) :=
  le_add_of_nonneg_right (by positivity)

/-- The title boost is at least one. -/
theorem titleBoostGeOne (q title : String) : 1 ≤ calculate_title_boost q title := by
  simp only [calculate_title_boost]
  split
  · exact le_refl 1
  · exact oneLeOneAddFrac _ _

/-- The source boost is at least one. -/
theorem sourceBoostGeOne (url : String) : 1 ≤ get_source_boost url := by
  simp only [get_source_boost]
  cases hfind : academicSourcesL.find? (fun p => containsSub p.1 (lowerText url.toList)) with
  | none => simp [hfind]
  | some p =>
    simp only [hfind]
    exact academicSourcesGeOne p (List.mem_of_find?_eq_some hfind)

/-- The density factor is at least one. -/
theorem densityGeOne (t : List Char) : 1 ≤ calculate_math_term_density t := by
  simp only [calculate_math_term_density]
  split
  · exact le_refl 1
  · split_ifs <;> norm_num

/-- The co-occurrence factor is at least one. -/
theorem cooccurrenceGeOne (t : List Char) : 1 ≤ calculate_math_term_cooccurrence t := by
  simp only [calculate_math_term_cooccurrence]
  split_ifs <;> norm_num

/-- The math-terms boost is at least one. -/
theorem mathTermsBoostGeOne (t : List Char) : 1 ≤ get_math_terms_boost t := by
  simp only [get_math_terms_boost]
  refine le_min ?_ (by norm_num)
  have h1 : 1 ≤ mathTermsWeightsL.foldl
      (fun b p =>
        if containsSub p.1 (lowerText t) then
          b * (1 + (p.2 - 1) * (countSubstr p.1 (lowerText t) : ℚ) * (1/10))
        else b) 1 := by
    refine foldlPreserve (fun b => 1 ≤ b) _ _ 1 (le_refl 1) ?_
    intro b p hp hb
    split
    · have hw := mathTermsWeightsGeOne p hp
      have hc : (0 : ℚ) ≤ (countSubstr p.1 (lowerText t) : ℚ) := by positivity
      have hx : (0 : ℚ) ≤ (p.2 - 1) * (countSubstr p.1 (lowerText t) : ℚ) * (1/10) := by
        have := mul_nonneg (sub_nonneg.mpr hw) hc
        nlinarith
      nlinarith
    · exact hb
  exact oneLeMulQ (oneLeMulQ h1 (densityGeOne (lowerText t))) (cooccurrenceGeOne (lowerText t))

/-- The domain-depth boost is at least one. -/
theorem depthBoostGeOne (t : List Char) : 1 ≤ get_math_domain_depth_boost t := by
  simp only [get_math_domain_depth_boost]
  refine le_min ?_ (by norm_num)
  refine oneLeIteMul _ ?_ (by norm_num)
  refine oneLeIteMul _ ?_ (by norm_num)
  refine oneLeIteMul _ ?_ ?_
  · split
    · have : (0 : ℚ) ≤ ((advanced_concepts.filter
          (fun s => containsSub s.toList (lowerText t))).length : ℚ) := by positivity
      nlinarith
    · exact le_refl 1
  · have : (0 : ℚ) ≤ ((research_keywords.filter
        (fun s => containsSub s.toList (lowerText t))).length : ℚ) := by positivity
    linarith

/-- The complexity fold's running count never exceeds its running total. -/
theorem complexityFoldInvariant (t : List Char) (l : List (List Char × ℚ))
    (hl : ∀ p ∈ l, (1 : ℚ) ≤ p.2) :
    ∀ acc : ℚ × ℕ, (acc.2 : ℚ) ≤ acc.1 →
      (((l.foldl
        (fun acc p => if containsSub p.1 (lowerText t) then (acc.1 + p.2, acc.2 + 1) else acc)
        acc).2 : ℚ)) ≤ (l.foldl
        (fun acc p => if containsSub p.1 (lowerText t) then (acc.1 + p.2, acc.2 + 1) else acc)
        acc).1 := by
  induction l with
  | nil => exact fun acc hacc => hacc
  | cons p l ih =>
    intro acc hacc
    simp only [List.foldl_cons]
    refine ih (fun x hx => hl x (by simp [hx])) _ ?_
    split
    · have hw := hl p (by simp)
      push_cast
      linarith
    · exact hacc

/-- The complexity boost is at least one. -/
theorem complexityBoostGeOne (t : List Char) : 1 ≤ calculate_mathematical_complexity_score t := by
  simp only [calculate_mathematical_complexity_score]
  split
  · exact le_refl 1
  · rename_i hne
    have hinv := complexityFoldInvariant t complexityIndicatorsL complexityIndicatorsGeOne
      ((0 : ℚ), (0 : ℕ)) (by norm_num)
    set tc := complexityIndicatorsL.foldl
      (fun acc p =>
        if containsSub p.1 (lowerText t) then (acc.1 + p.2, acc.2 + 1) else acc)
      ((0 : ℚ), (0 : ℕ)) with htc
    have hpos : 0 < ((tc.2 : ℚ)) := by
      have h2 : tc.2 ≠ 0 := hne
      positivity
    have havg : 1 ≤ tc.1 / (tc.2 : ℚ) := (one_le_div hpos).mpr hinv
    refine le_min ?_ (by norm_num)
    nlinarith

/-- The academic-level boost is at least `0.8`. -/
theorem academicBoostGeClamp (r : SearchResult) : 8/10 ≤ get_academic_level_boost r := by
  simp only [get_academic_level_boost]
  exact le_min (le_max_right _ _) (by norm_num)

/-- The academic-level boost is at most `1.6`. -/
theorem academicBoostLeClamp (r : SearchResult) : get_academic_level_boost r ≤ 16/10 := by
  simp only [get_academic_level_boost]
  exact min_le_right _ _

/-! ## Lexicographic comparison lemmas for the 4-part sort key -/

/-- `lexLe` is transitive when its second component relation is. -/
theorem lexLeTrans {α β : Type} [LinearOrder α] {le2 : β → β → Prop}
    (htr : ∀ x y z, le2 x y → le2 y z → le2 x z) :
    ∀ a b c : α × β, lexLe le2 a b → lexLe le2 b c → lexLe le2 a c := by
  rintro ⟨a1, a2⟩ ⟨b1, b2⟩ ⟨c1, c2⟩ (h | ⟨rfl, h2⟩) (h' | ⟨he', h2'⟩)
  · exact Or.inl (lt_trans h h')
  · exact Or.inl (he' ▸ h)
  · exact Or.inl h'
  · exact Or.inr ⟨he', htr _ _ _ h2 h2'⟩

/-- `lexLe` is total when its second component relation is. -/
theorem lexLeTotal {α β : Type} [LinearOrder α] {le2 : β → β → Prop}
    (hto : ∀ x y, le2 x y ∨ le2 y x) :
    ∀ a b : α × β, lexLe le2 a b ∨ lexLe le2 b a := by
  intro a b
  rcases lt_trichotomy a.1 b.1 with h | h | h
  · exact Or.inl (Or.inl h)
  · rcases hto a.2 b.2 with h2 | h2
    · exact Or.inl (Or.inr ⟨h, h2⟩)
    · exact Or.inr (Or.inr ⟨h.symm, h2⟩)
  · exact Or.inr (Or.inl h)

/-- Transitivity of the 4-component key order. -/
theorem keyTupleLeTrans : ∀ a b c, keyTupleLe a b → keyTupleLe b c → keyTupleLe a c :=
  lexLeTrans (lexLeTrans (lexLeTrans (fun _ _ _ h h' => le_trans h h')))

/-- Totality of the 4-component key order. -/
theorem keyTupleLeTotal : ∀ a b, keyTupleLe a b ∨ keyTupleLe b a :=
  lexLeTotal (lexLeTotal (lexLeTotal (fun x y => le_total x y)))

/-! ## Claim theorems -/

/-- C2: for every query and candidate, `calculate_relevance` equals the clamp to
`[0,1]` of `(similarity*0.4 + keyword_score*0.4 + 0.2)` multiplied by the
math-content multiplier (`1.2` iff `math_content_detected`) and the title boost
`1 + 0.3 × (fraction of query tokens present in the title)` — the spec-side
formula `calculate_relevance_spec`.  Non-mutation of the candidate holds by
construction: the function is a pure function returning only the score. -/
theorem calculate_relevance_eq_spec_formula (query : String) (r : SearchResult) :
    calculate_relevance query r = calculate_relevance_spec query r := rfl

/-- C3: `rank_results` output is pairwise descending in the lexicographic order on the
4-tuple `(relevance_score, math-flag as 1/0, recomputed source boost, timestamp)`,
and it is a permutation of the input (the very same records, so in particular every
candidate's `relevance_score` is unchanged). -/
theorem rank_results_sorted_and_perm (l : List SearchResult) :
    (rank_results l).Pairwise (fun a b => keyTupleLe (sort_key b) (sort_key a)) ∧
      (rank_results l).Perm l := by
  constructor
  · have hs : (l.mergeSort
        (fun a b => decide (keyTupleLe (sort_key b) (sort_key a)))).Pairwise
        (fun a b => decide (keyTupleLe (sort_key b) (sort_key a)) = true) :=
      List.sorted_mergeSort
        (fun a b c hab hbc => by
          simp only [decide_eq_true_eq] at *
          exact keyTupleLeTrans _ _ _ hbc hab)
        (fun a b : SearchResult => by
          simp only [Bool.or_eq_true, decide_eq_true_eq]
          exact keyTupleLeTotal (sort_key b) (sort_key a))
        l
    exact hs.imp (fun h => of_decide_eq_true h)
  · exact List.mergeSort_perm l _

/-- C4: `apply_math_domain_boost` preserves length and order, and changes no field
other than `relevance_score`.  Non-mutation of the input list and records holds by
construction (the embedding is purely functional, as is the source's copy-then-update
pattern). -/
theorem apply_math_domain_boost_frame (l : List SearchResult) :
    (apply_math_domain_boost l).length = l.length ∧
    ∀ (i : ℕ) (hi : i < (apply_math_domain_boost l).length) (hj : i < l.length),
      ((apply_math_domain_boost l).get ⟨i, hi⟩).title = (l.get ⟨i, hj⟩).title ∧
      ((apply_math_domain_boost l).get ⟨i, hi⟩).url = (l.get ⟨i, hj⟩).url ∧
      ((apply_math_domain_boost l).get ⟨i, hi⟩).snippet = (l.get ⟨i, hj⟩).snippet ∧
      ((apply_math_domain_boost l).get ⟨i, hi⟩).source = (l.get ⟨i, hj⟩).source ∧
      ((apply_math_domain_boost l).get ⟨i, hi⟩).timestamp = (l.get ⟨i, hj⟩).timestamp ∧
      ((apply_math_domain_boost l).get ⟨i, hi⟩).math_content_detected
        = (l.get ⟨i, hj⟩).math_content_detected := by
  refine ⟨by simp [apply_math_domain_boost], ?_⟩
  intro i hi hj
  simp only [apply_math_domain_boost, List.get_eq_getElem, List.getElem_map]
  exact ⟨trivial, trivial, trivial, trivial, trivial, trivial⟩

/-- C5: the `final_score` reported by `get_advanced_sorting_metrics` coincides with
the `relevance_score` produced by `apply_math_domain_boost` on the same candidate;
both equal `min(score × source_boost × math_terms_boost × domain_depth_boost ×
complexity_boost × academic_level_boost × (1.15 if math flagged else 1.0), 1.0)`. -/
theorem metrics_final_score_eq_boost (l : List SearchResult) (i : ℕ)
    (hi : i < (get_advanced_sorting_metrics l).length)
    (hj : i < (apply_math_domain_boost l).length) (hk : i < l.length) :
    ((get_advanced_sorting_metrics l).get ⟨i, hi⟩).final_score
      = ((apply_math_domain_boost l).get ⟨i, hj⟩).relevance_score ∧
    ((get_advanced_sorting_metrics l).get ⟨i, hi⟩).final_score
      = min ((l.get ⟨i, hk⟩).relevance_score *
          (get_source_boost (l.get ⟨i, hk⟩).url *
           get_math_terms_boost (textOf (l.get ⟨i, hk⟩)) *
           get_math_domain_depth_boost (textOf (l.get ⟨i, hk⟩)) *
           calculate_mathematical_complexity_score (textOf (l.get ⟨i, hk⟩)) *
           get_academic_level_boost (l.get ⟨i, hk⟩) *
           (if (l.get ⟨i, hk⟩).math_content_detected then 115/100 else 1))) 1 := by
  simp only [get_advanced_sorting_metrics, apply_math_domain_boost,
    List.get_eq_getElem, List.getElem_map]
  constructor
  · show min _ 1 = min _ 1
    congr 1
    ring
  · trivial

/-- C1: `calculate_relevance` always returns a value in `[0,1]` (the final clamp),
and on a list of valid candidates every record returned by `apply_math_domain_boost`
carries a `relevance_score` in `[0,1]`. -/
theorem relevance_and_boost_score_bounds (query : String) (r : SearchResult)
    (l : List SearchResult) (_hr : ValidResult r) (hl : ∀ x ∈ l, ValidResult x) :
    (0 ≤ calculate_relevance query r ∧ calculate_relevance query r ≤ 1) ∧
    ∀ b ∈ apply_math_domain_boost l, 0 ≤ b.relevance_score ∧ b.relevance_score ≤ 1 := by
  constructor
  · constructor
    · show (0 : ℝ) ≤ min (max _ 0) 1
      exact le_min (le_max_right _ _) zero_le_one
    · exact min_le_right _ _
  · intro b hb
    simp only [apply_math_domain_boost, List.mem_map] at hb
    obtain ⟨x, hx, rfl⟩ := hb
    dsimp only
    constructor
    · refine le_min ?_ zero_le_one
      refine mul_nonneg (hl x hx).2.2.1 ?_
      have h1 := sourceBoostGeOne x.url
      have h2 : (0 : ℚ) ≤ (if x.math_content_detected then (115/100 : ℚ) else 1) := by
        split <;> norm_num
      have h3 := mathTermsBoostGeOne (textOf x)
      have h4 := depthBoostGeOne (textOf x)
      have h5 := complexityBoostGeOne (textOf x)
      have h6 := academicBoostGeClamp x
      exact mul_nonneg (mul_nonneg (mul_nonneg (mul_nonneg (mul_nonneg
        (le_trans zero_le_one h1) h2) (le_trans zero_le_one h3))
        (le_trans zero_le_one h4)) (le_trans zero_le_one h5))
        (le_trans (by norm_num) h6)
    · exact min_le_right _ _

/-- Witness for C1 at a concrete query, candidate and list. -/
theorem relevance_and_boost_score_bounds_witness :
    (ValidResult ⟨"t", "u", "s", "w", 1/2, 0, false⟩ ∧
      (∀ x ∈ [(⟨"t", "u", "s", "w", 1/2, 0, false⟩ : SearchResult)], ValidResult x)) ∧
    ((0 ≤ calculate_relevance "q" ⟨"t", "u", "s", "w", 1/2, 0, false⟩ ∧
        calculate_relevance "q" ⟨"t", "u", "s", "w", 1/2, 0, false⟩ ≤ 1) ∧
      ∀ b ∈ apply_math_domain_boost [(⟨"t", "u", "s", "w", 1/2, 0, false⟩ : SearchResult)],
        0 ≤ b.relevance_score ∧ b.relevance_score ≤ 1) :=
  ⟨⟨by with_unfolding_all decide, by with_unfolding_all decide⟩,
   relevance_and_boost_score_bounds "q" ⟨"t", "u", "s", "w", 1/2, 0, false⟩
     [⟨"t", "u", "s", "w", 1/2, 0, false⟩]
     (by with_unfolding_all decide) (by with_unfolding_all decide)⟩

/-- C8: constructing a `SearchResult` fails exactly when the title is empty, the url is
empty, or the score lies outside `[0,1]`; otherwise it succeeds with the given fields. -/
theorem mkSearchResult_error_iff (title url snippet source : String) (score : ℚ)
    (ts : ℤ) (math : Bool) :
    ((∃ e, mkSearchResult title url snippet source score ts math = Except.error e) ↔
      (title = "" ∨ url = "" ∨ score < 0 ∨ 1 < score)) ∧
    ((title ≠ "" ∧ url ≠ "" ∧ 0 ≤ score ∧ score ≤ 1) →
      mkSearchResult title url snippet source score ts math
        = Except.ok ⟨title, url, snippet, source, score, ts, math⟩) := by
  unfold mkSearchResult
  split_ifs with h1 h2
  · constructor
    · exact ⟨fun _ => by tauto, fun _ => ⟨_, rfl⟩⟩
    · intro hv
      rcases h1 with h | h
      · exact absurd h hv.1
      · exact absurd h hv.2.1
  · push_neg at h1
    constructor
    · constructor
      · rintro ⟨e, he⟩
        simp at he
      · intro hcase
        rcases hcase with h | h | h | h
        · exact absurd h h1.1
        · exact absurd h h1.2
        · exact absurd h2.1 (not_le.mpr h)
        · exact absurd h2.2 (not_le.mpr h)
    · intro _
      rfl
  · rw [not_and_or, not_le, not_le] at h2
    constructor
    · exact ⟨fun _ => by tauto, fun _ => ⟨_, rfl⟩⟩
    · intro hv
      rcases h2 with h | h
      · exact absurd hv.2.2.1 (not_le.mpr h)
      · exact absurd hv.2.2.2 (not_le.mpr h)

/-- Witness for C8: the empty-title construction fails. -/
theorem mkSearchResult_error_iff_witness :
    ∃ e, mkSearchResult "" "u" "s" "w" (1/2) 0 false = Except.error e :=
  (mkSearchResult_error_iff "" "u" "s" "w" (1/2) 0 false).1.mpr (Or.inl rfl)

/-- C9: a valid candidate exists for which `apply_math_domain_boost` strictly lowers
the score: with text `"elementary"` the academic-level boost is `0.8` while every
other factor is `1.0`, so `0.5` drops to `0.4`. -/
theorem boost_can_decrease_score :
    ∃ c : SearchResult, ValidResult c ∧
      get_academic_level_boost c = 8/10 ∧
      get_source_boost c.url = 1 ∧
      get_math_terms_boost (textOf c) = 1 ∧
      get_math_domain_depth_boost (textOf c) = 1 ∧
      calculate_mathematical_complexity_score (textOf c) = 1 ∧
      (apply_math_domain_boost [c]).map (fun b => b.relevance_score) = [2/5] ∧
      (2/5 : ℚ) < c.relevance_score :=
  ⟨⟨"elementary", "u", "", "w", 1/2, 0, false⟩, by with_unfolding_all decide⟩

/-! ## Bounds for the TF-IDF similarity chain -/

/-- Term frequencies are nonnegative. -/
theorem tfValueNonneg (ws : List (List Char)) (w : List Char) : 0 ≤ tf_value ws w := by
  simp only [tf_value]
  split
  · positivity
  · exact le_refl 0

/-- The document frequency of any token is at most 2. -/
theorem docFreqLeTwo (ws1 ws2 : List (List Char)) (w : List Char) :
    doc_freq ws1 ws2 w ≤ 2 := by
  simp only [doc_freq]
  split_ifs <;> norm_num

/-- The degenerate inverse document frequency is nonnegative. -/
theorem invDocFreqNonneg (ws1 ws2 : List (List Char)) (w : List Char) :
    0 ≤ inv_doc_freq ws1 ws2 w := by
  simp only [inv_doc_freq]
  split
  · rename_i hdf
    refine Real.log_nonneg ?_
    have hle := docFreqLeTwo ws1 ws2 w
    have hpos : (0 : ℝ) < (doc_freq ws1 ws2 w : ℝ) := by exact_mod_cast hdf
    rw [le_div_iff₀ hpos]
    have h2 : ((doc_freq ws1 ws2 w : ℝ)) ≤ 2 := by exact_mod_cast hle
    linarith
  · exact le_refl 0

/-- TF-IDF vector entries are nonnegative. -/
theorem tfidfEntryNonneg (ws1 ws2 wsDoc : List (List Char)) (w : List Char) :
    0 ≤ tfidf_entry ws1 ws2 wsDoc w := by
  simp only [tfidf_entry]
  refine mul_nonneg ?_ ?_
  · exact_mod_cast tfValueNonneg wsDoc w
  · have := invDocFreqNonneg ws1 ws2 w
    linarith

/-- Cosine similarity of vectors with nonnegative entries lies in `[0, 1]`. -/
theorem cosineSimBounds (vec1 vec2 : List Char → ℝ) (words : Finset (List Char))
    (h1 : ∀ w ∈ words, 0 ≤ vec1 w) (h2 : ∀ w ∈ words, 0 ≤ vec2 w) :
    0 ≤ cosine_similarity vec1 vec2 words ∧ cosine_similarity vec1 vec2 words ≤ 1 := by
  simp only [cosine_similarity]
  split
  · exact ⟨le_refl 0, zero_le_one⟩
  · rename_i hnz
    push_neg at hnz
    have hs1 : (0 : ℝ) ≤ vec_norm vec1 words := Real.sqrt_nonneg _
    have hs2 : (0 : ℝ) ≤ vec_norm vec2 words := Real.sqrt_nonneg _
    have hp1 : 0 < vec_norm vec1 words := lt_of_le_of_ne hs1 (Ne.symm hnz.1)
    have hp2 : 0 < vec_norm vec2 words := lt_of_le_of_ne hs2 (Ne.symm hnz.2)
    have hdot : 0 ≤ ∑ w ∈ words, vec1 w * vec2 w :=
      Finset.sum_nonneg (fun w hw => mul_nonneg (h1 w hw) (h2 w hw))
    constructor
    · exact div_nonneg hdot (le_of_lt (mul_pos hp1 hp2))
    · rw [div_le_one (mul_pos hp1 hp2)]
      simp only [vec_norm]
      exact Real.sum_mul_le_sqrt_mul_sqrt words vec1 vec2

/-- The two-document pseudo-TF-IDF similarity lies in `[0, 1]`. -/
theorem customTfidfSimBounds (t1 t2 : List Char) :
    0 ≤ custom_tfidf_similarity t1 t2 ∧ custom_tfidf_similarity t1 t2 ≤ 1 := by
  simp only [custom_tfidf_similarity]
  split
  · exact ⟨le_refl 0, zero_le_one⟩
  · split
    · exact ⟨le_refl 0, zero_le_one⟩
    · exact cosineSimBounds _ _ _
        (fun w _ => tfidfEntryNonneg (filtered_words t1) (filtered_words t2) (filtered_words t1) w)
        (fun w _ => tfidfEntryNonneg (filtered_words t1) (filtered_words t2) (filtered_words t2) w)

/-- C7: the two-document pseudo-TF-IDF similarity lies in `[0,1]`; it is `0` whenever
either filtered token list is empty, and `0` whenever either TF-IDF vector has zero
L2 norm. -/
theorem custom_tfidf_similarity_range_and_zero (t1 t2 : List Char) :
    (0 ≤ custom_tfidf_similarity t1 t2 ∧ custom_tfidf_similarity t1 t2 ≤ 1) ∧
    ((filtered_words t1 = [] ∨ filtered_words t2 = []) → custom_tfidf_similarity t1 t2 = 0) ∧
    ((vec_norm (tfidf_entry (filtered_words t1) (filtered_words t2) (filtered_words t1))
        (all_words (filtered_words t1) (filtered_words t2)) = 0 ∨
      vec_norm (tfidf_entry (filtered_words t1) (filtered_words t2) (filtered_words t2))
        (all_words (filtered_words t1) (filtered_words t2)) = 0) →
      custom_tfidf_similarity t1 t2 = 0) := by
  refine ⟨customTfidfSimBounds t1 t2, ?_, ?_⟩
  · intro h
    simp only [custom_tfidf_similarity]
    rw [if_pos h]
  · intro h
    simp only [custom_tfidf_similarity]
    split
    · rfl
    · split
      · rfl
      · simp only [cosine_similarity]
        rw [if_pos h]

/-- Witness for C7: the empty text has an empty filtered token list, and the
similarity against any text is then `0`. -/
theorem custom_tfidf_similarity_range_and_zero_witness :
    (filtered_words [] = [] ∨ filtered_words "x".toList = []) ∧
      custom_tfidf_similarity [] "x".toList = 0 :=
  ⟨Or.inl rfl,
   (custom_tfidf_similarity_range_and_zero [] "x".toList).2.1 (Or.inl rfl)⟩

/-- C10: `calculate_relevance` never returns less than `0.2`: the additive base
constant `0.2` survives the multiplicative factors (all at least `1`) and the final
clamp. -/
theorem calculate_relevance_ge_base (query : String) (r : SearchResult)
    (_h : ValidResult r) : (2/10 : ℝ) ≤ calculate_relevance query r := by
  have hsim := (customTfidfSimBounds query.toList (textOf r)).1
  have hkw : (0 : ℚ) ≤ calculate_keyword_matching query r := keywordMatchingNonneg query r
  have htb : (1 : ℚ) ≤ calculate_title_boost query r.title := titleBoostGeOne query r.title
  simp only [calculate_relevance, calculate_tfidf_similarity]
  set S := custom_tfidf_similarity query.toList (textOf r) with hS
  set K := calculate_keyword_matching query r with hK
  set T := calculate_title_boost query r.title with hT
  have hKR : (0 : ℝ) ≤ (K : ℝ) := by exact_mod_cast hkw
  have hTR : (1 : ℝ) ≤ (T : ℝ) := by exact_mod_cast htb
  have hM : (1 : ℝ) ≤ (if r.math_content_detected then (12/10 : ℝ) else 1) := by
    split <;> norm_num
  have hbase : (2/10 : ℝ) ≤ S * (4/10) + (K : ℝ) * (4/10) + 2/10 := by nlinarith [hsim]
  have h1 : S * (4/10) + (K : ℝ) * (4/10) + 2/10 ≤
      (S * (4/10) + (K : ℝ) * (4/10) + 2/10) *
        (if r.math_content_detected then (12/10 : ℝ) else 1) :=
    le_mul_of_one_le_right (by linarith) hM
  have h2 : (S * (4/10) + (K : ℝ) * (4/10) + 2/10) *
        (if r.math_content_detected then (12/10 : ℝ) else 1) ≤
      (S * (4/10) + (K : ℝ) * (4/10) + 2/10) *
        (if r.math_content_detected then (12/10 : ℝ) else 1) * (T : ℝ) :=
    le_mul_of_one_le_right (by linarith) hTR
  refine le_min (le_trans ?_ (le_max_left _ _)) (by norm_num)
  linarith

/-- Witness for C10 at a concrete query and valid candidate. -/
theorem calculate_relevance_ge_base_witness :
    ValidResult ⟨"t", "u", "s", "w", 1/2, 0, false⟩ ∧
      (2/10 : ℝ) ≤ calculate_relevance "q" ⟨"t", "u", "s", "w", 1/2, 0, false⟩ :=
  ⟨by with_unfolding_all decide,
   calculate_relevance_ge_base "q" ⟨"t", "u", "s", "w", 1/2, 0, false⟩
     (by with_unfolding_all decide)⟩

/-! ## Lemmas for texts containing no recognized math terms (claim C6) -/

/-- The density factor is `1` on a text none of whose recognized math terms occur
(the hypothesis is about the text as the scanner lowercases it). -/
theorem densityOfNoTerms (u : List Char)
    (h : ∀ p ∈ mathTermsWeightsL, containsSub p.1 (lowerText u) = false) :
    calculate_math_term_density u = 1 := by
  simp only [calculate_math_term_density]
  split
  · rfl
  · have hcount : mathTermsWeightsL.foldl
        (fun n p =>
          if containsSub p.1 (lowerText u) then
            if p.1.contains ' ' then n + countSubstr p.1 (lowerText u)
            else n + boundaryCount p.1 (lowerText u)
          else n) 0 = 0 :=
      foldlFix _ _ _ (fun n p hp => by simp [h p hp])
    rw [hcount]
    simp only [Nat.cast_zero, zero_div, ite_self]
    norm_num

/-- The co-occurrence factor is `1` on a (pre-lowercased) text with no recognized
math terms. -/
theorem cooccurrenceOfNoTerms (u : List Char)
    (h : ∀ p ∈ mathTermsWeightsL, containsSub p.1 u = false) :
    calculate_math_term_cooccurrence u = 1 := by
  simp only [calculate_math_term_cooccurrence]
  have hfilter : advanced_terms_cooccurrence.filter (fun s => containsSub s.toList u) = [] := by
    refine List.filter_eq_nil_iff.mpr ?_
    intro s hs
    obtain ⟨p, hp, hpe⟩ := advancedCooccurrenceSubMathTerms s hs
    rw [← hpe]
    simp [h p hp]
  rw [hfilter]
  norm_num

/-- The math-terms boost is exactly `1` on a text with no recognized math terms. -/
theorem mathTermsBoostOfNoTerms (t : List Char)
    (h : ∀ p ∈ mathTermsWeightsL, containsSub p.1 (lowerText t) = false) :
    get_math_terms_boost t = 1 := by
  simp only [get_math_terms_boost]
  have hfold : mathTermsWeightsL.foldl
      (fun b p =>
        if containsSub p.1 (lowerText t) then
          b * (1 + (p.2 - 1) * (countSubstr p.1 (lowerText t) : ℚ) * (1/10))
        else b) 1 = 1 :=
    foldlFix _ _ _ (fun b p hp => by simp [h p hp])
  have hdens : calculate_math_term_density (lowerText t) = 1 :=
    densityOfNoTerms (lowerText t) (fun p hp => by rw [lowerTextIdem]; exact h p hp)
  have hcooc : calculate_math_term_cooccurrence (lowerText t) = 1 :=
    cooccurrenceOfNoTerms (lowerText t) h
  rw [hfold, hdens, hcooc]
  norm_num

/-- The complexity boost is exactly `1` on a text with no complexity indicators. -/
theorem complexityOfNoTerms (t : List Char)
    (h : ∀ p ∈ complexityIndicatorsL, containsSub p.1 (lowerText t) = false) :
    calculate_mathematical_complexity_score t = 1 := by
  simp only [calculate_mathematical_complexity_score]
  have hfold : complexityIndicatorsL.foldl
      (fun acc p =>
        if containsSub p.1 (lowerText t) then (acc.1 + p.2, acc.2 + 1) else acc)
      ((0 : ℚ), (0 : ℕ)) = ((0 : ℚ), (0 : ℕ)) :=
    foldlFix _ _ _ (fun acc p hp => by simp [h p hp])
  rw [hfold]
  norm_num

/-- The academic-level boost only depends on the indicator occurrences and the url. -/
theorem academicBoostCongr (c c' : SearchResult) (hurl : c'.url = c.url)
    (hacad : ∀ p ∈ academicIndicatorsL,
      containsSub p.1 (lowerText (textOf c')) = containsSub p.1 (lowerText (textOf c))) :
    get_academic_level_boost c' = get_academic_level_boost c := by
  simp only [get_academic_level_boost]
  rw [hurl]
  have hfold : academicIndicatorsL.foldl
      (fun b p => if containsSub p.1 (lowerText (textOf c')) then b * p.2 else b) 1
      = academicIndicatorsL.foldl
      (fun b p => if containsSub p.1 (lowerText (textOf c)) then b * p.2 else b) 1 :=
    foldlCongrMem _ _ _ 1 (fun b p hp => by rw [hacad p hp])
  rw [hfold]

/-- Folding a conditional multiplication: the factor can be pulled out. -/
theorem iteMulEq (b k : ℚ) (c : Prop) [Decidable c] :
    (if c then b * k else b) = b * (if c then k else 1) := by
  split <;> ring

/-- A conditional factor with a `≥ 1` branch is `≥ 1`. -/
theorem iteGeOne (c : Prop) [Decidable c] {k : ℚ} (hk : 1 ≤ k) : 1 ≤ if c then k else 1 := by
  split
  · exact hk
  · exact le_refl 1

/-- A conditional factor is monotone along an implication of its condition. -/
theorem iteLeIte (c' c : Prop) [Decidable c'] [Decidable c] (himp : c' → c) {k : ℚ}
    (hk : 1 ≤ k) : (if c' then k else 1) ≤ (if c then k else 1) := by
  by_cases h1 : c'
  · rw [if_pos h1, if_pos (himp h1)]
  · rw [if_neg h1]
    exact iteGeOne c hk

/-- The research-keyword factor is monotone in the keyword count. -/
theorem researchFactorMono (a b : ℕ) (h : a ≤ b) :
    (if 0 < a then (1 : ℚ) + (a : ℚ) * (1/10) else 1) ≤
      (if 0 < b then (1 : ℚ) + (b : ℚ) * (1/10) else 1) := by
  by_cases h1 : 0 < a
  · rw [if_pos h1, if_pos (lt_of_lt_of_le h1 h)]
    have hc : (a : ℚ) ≤ (b : ℚ) := by exact_mod_cast h
    linarith
  · rw [if_neg h1]
    refine iteGeOne _ ?_
    have hc : (0 : ℚ) ≤ (b : ℚ) := by positivity
    linarith

/-- Monotonicity of the domain-depth boost: a text with no recognized math terms and
no new research keywords, math symbols or LaTeX markers gets at most the depth boost
of the original text. -/
theorem depthBoostMono (c c' : SearchResult)
    (hnoterms : ∀ p ∈ mathTermsWeightsL, containsSub p.1 (lowerText (textOf c')) = false)
    (hresearch : ∀ s ∈ research_keywords,
        containsSub s.toList (lowerText (textOf c')) = true →
        containsSub s.toList (lowerText (textOf c)) = true)
    (hsym : ∀ sym ∈ mathSymbols,
        (textOf c').contains sym = true → (textOf c).contains sym = true)
    (hdollar : (textOf c').contains '$' = true → (textOf c).contains '$' = true)
    (hbslash : (textOf c').contains '\\' = true → (textOf c).contains '\\' = true) :
    get_math_domain_depth_boost (textOf c') ≤ get_math_domain_depth_boost (textOf c) := by
  simp only [get_math_domain_depth_boost, iteMulEq, one_mul]
  refine min_le_min ?_ (le_refl _)
  have ha' : (advanced_concepts.filter
      (fun s => containsSub s.toList (lowerText (textOf c')))).length = 0 := by
    rw [List.length_eq_zero]
    refine List.filter_eq_nil_iff.mpr ?_
    intro s hs
    obtain ⟨p, hp, hpe⟩ := advancedConceptsSubMathTerms s hs
    rw [← hpe]
    simp [hnoterms p hp]
  rw [ha', if_neg (lt_irrefl 0)]
  have hRmono := researchFactorMono
    ((research_keywords.filter (fun s => containsSub s.toList (lowerText (textOf c')))).length)
    ((research_keywords.filter (fun s => containsSub s.toList (lowerText (textOf c)))).length)
    (filterLengthMono _ _ research_keywords hresearch)
  have hR'ge : (1 : ℚ) ≤ if 0 < (research_keywords.filter
      (fun s => containsSub s.toList (lowerText (textOf c')))).length then
      (1 : ℚ) + ((research_keywords.filter
        (fun s => containsSub s.toList (lowerText (textOf c')))).length : ℚ) * (1/10) else 1 :=
    iteGeOne _ (le_add_of_nonneg_right (by positivity))
  have hAge : (1 : ℚ) ≤ if 0 < (advanced_concepts.filter
      (fun s => containsSub s.toList (lowerText (textOf c)))).length then
      (1 : ℚ) + ((advanced_concepts.filter
        (fun s => containsSub s.toList (lowerText (textOf c)))).length : ℚ) * (15/100) else 1 :=
    iteGeOne _ (le_add_of_nonneg_right (by positivity))
  have hSmono : (if mathSymbols.any (fun ch => (textOf c').contains ch) = true
        then (12/10 : ℚ) else 1) ≤
      (if mathSymbols.any (fun ch => (textOf c).contains ch) = true then (12/10 : ℚ) else 1) := by
    refine iteLeIte _ _ ?_ (by norm_num)
    intro h
    rw [List.any_eq_true] at h ⊢
    obtain ⟨ch, hch, hc⟩ := h
    exact ⟨ch, hch, hsym ch hch hc⟩
  have hLmono : (if ((textOf c').contains '$' || (textOf c').contains '\\') = true
        then (115/100 : ℚ) else 1) ≤
      (if ((textOf c).contains '$' || (textOf c).contains '\\') = true
        then (115/100 : ℚ) else 1) := by
    refine iteLeIte _ _ ?_ (by norm_num)
    intro h
    rw [Bool.or_eq_true] at h ⊢
    rcases h with h | h
    · exact Or.inl (hdollar h)
    · exact Or.inr (hbslash h)
  have hS'ge : (1 : ℚ) ≤ if mathSymbols.any (fun ch => (textOf c').contains ch) = true
      then (12/10 : ℚ) else 1 := iteGeOne _ (by norm_num)
  have hL'ge : (1 : ℚ) ≤ if ((textOf c').contains '$' || (textOf c').contains '\\') = true
      then (115/100 : ℚ) else 1 := iteGeOne _ (by norm_num)
  have hRge : (1 : ℚ) ≤ if 0 < (research_keywords.filter
      (fun s => containsSub s.toList (lowerText (textOf c)))).length then
      (1 : ℚ) + ((research_keywords.filter
        (fun s => containsSub s.toList (lowerText (textOf c)))).length : ℚ) * (1/10) else 1 :=
    iteGeOne _ (le_add_of_nonneg_right (by positivity))
  have hSge : (1 : ℚ) ≤ if mathSymbols.any (fun ch => (textOf c).contains ch) = true
      then (12/10 : ℚ) else 1 := iteGeOne _ (by norm_num)
  set R' := if 0 < (research_keywords.filter
      (fun s => containsSub s.toList (lowerText (textOf c')))).length then
      (1 : ℚ) + ((research_keywords.filter
        (fun s => containsSub s.toList (lowerText (textOf c')))).length : ℚ) * (1/10) else 1
  set S' := if mathSymbols.any (fun ch => (textOf c').contains ch) = true
      then (12/10 : ℚ) else 1
  set L' := if ((textOf c').contains '$' || (textOf c').contains '\\') = true
      then (115/100 : ℚ) else 1
  set A := if 0 < (advanced_concepts.filter
      (fun s => containsSub s.toList (lowerText (textOf c)))).length then
      (1 : ℚ) + ((advanced_concepts.filter
        (fun s => containsSub s.toList (lowerText (textOf c)))).length : ℚ) * (15/100) else 1
  set R := if 0 < (research_keywords.filter
      (fun s => containsSub s.toList (lowerText (textOf c)))).length then
      (1 : ℚ) + ((research_keywords.filter
        (fun s => containsSub s.toList (lowerText (textOf c)))).length : ℚ) * (1/10) else 1
  set S := if mathSymbols.any (fun ch => (textOf c).contains ch) = true
      then (12/10 : ℚ) else 1
  set L := if ((textOf c).contains '$' || (textOf c).contains '\\') = true
      then (115/100 : ℚ) else 1
  calc 1 * R' * S' * L' = R' * S' * L' := by ring
    _ ≤ R * S * L := by
        refine mul_le_mul (mul_le_mul hRmono hSmono (by linarith) (by linarith)) hLmono
          (by linarith) ?_
        have : (0 : ℚ) ≤ R := by linarith
        have : (0 : ℚ) ≤ S := by linarith
        positivity
    _ ≤ A * (R * S * L) := by
        refine le_mul_of_one_le_left ?_ hAge
        have h1 : (0 : ℚ) ≤ R := by linarith
        have h2 : (0 : ℚ) ≤ S := by linarith
        have h3 : (0 : ℚ) ≤ L := by linarith
        positivity
    _ = A * R * S * L := by ring

set_option maxRecDepth 10000 in
/-- Counterexample to C6 as stated: the snippet `"joursinenal"` contains the
recognized math term `"sine"`; stripping the recognized math terms from it yields
`"journal"`, and the stripped candidate's boosted score (`0.77`) is strictly LARGER
than the original's (`0.51`) — removing `"sine"` concatenates the remainder into
`"journal"`, which triggers the research-keyword depth factor (`×1.1`) and the
academic-indicator factor (`×1.4`) that the original text lacks. -/
theorem strip_terms_counterexample :
    (∃ p ∈ mathTermsWeightsL,
        containsSub p.1 (lowerText ("joursinenal".toList)) = true) ∧
    strip_math_terms "joursinenal".toList = "journal".toList ∧
    (apply_math_domain_boost
        [⟨"t", "u", "joursinenal", "w", 1/2, 0, false⟩]).map (fun b => b.relevance_score)
      = [51/100] ∧
    (apply_math_domain_boost
        [⟨"t", "u", "journal", "w", 1/2, 0, false⟩]).map (fun b => b.relevance_score)
      = [77/100] ∧
    (51/100 : ℚ) < 77/100 := by
  with_unfolding_all decide

/-- C6 (amended): boosting a candidate whose snippet contains recognized math terms
never yields a smaller score than the same candidate with those terms stripped from
the snippet, PROVIDED stripping introduces no new indicator occurrences: the stripped
text must contain no recognized math term, no research keyword / math symbol / LaTeX
marker absent from the original text, and exactly the original's academic-indicator
occurrences.  (The counterexample shows the proviso is necessary: deleting a term
can concatenate its surroundings into a new indicator.) -/
theorem boost_ge_stripped (c c' : SearchResult)
    (hscore : 0 ≤ c.relevance_score)
    (_htitle : c'.title = c.title)
    (hurl : c'.url = c.url)
    (_hsrc : c'.source = c.source)
    (hsc : c'.relevance_score = c.relevance_score)
    (_hts : c'.timestamp = c.timestamp)
    (hm : c'.math_content_detected = c.math_content_detected)
    (_hstrip : c'.snippet.toList = strip_math_terms c.snippet.toList)
    (_hterms : ∃ p ∈ mathTermsWeightsL,
        containsSub p.1 (lowerText c.snippet.toList) = true)
    (hnoterms : ∀ p ∈ mathTermsWeightsL,
        containsSub p.1 (lowerText (textOf c')) = false)
    (hresearch : ∀ s ∈ research_keywords,
        containsSub s.toList (lowerText (textOf c')) = true →
        containsSub s.toList (lowerText (textOf c)) = true)
    (hsym : ∀ sym ∈ mathSymbols,
        (textOf c').contains sym = true → (textOf c).contains sym = true)
    (hdollar : (textOf c').contains '$' = true → (textOf c).contains '$' = true)
    (hbslash : (textOf c').contains '\\' = true → (textOf c).contains '\\' = true)
    (hacad : ∀ p ∈ academicIndicatorsL,
        containsSub p.1 (lowerText (textOf c')) = containsSub p.1 (lowerText (textOf c))) :
    ∀ b' ∈ apply_math_domain_boost [c'], ∀ b ∈ apply_math_domain_boost [c],
      b'.relevance_score ≤ b.relevance_score := by
  intro b' hb' b hb
  simp only [apply_math_domain_boost, List.map_cons, List.map_nil,
    List.mem_singleton] at hb' hb
  subst hb'
  subst hb
  dsimp only
  rw [hsc, hurl, hm]
  have hterms1 : get_math_terms_boost (textOf c') = 1 := mathTermsBoostOfNoTerms _ hnoterms
  have hcplx1 : calculate_mathematical_complexity_score (textOf c') = 1 :=
    complexityOfNoTerms _ (fun p hp => by
      obtain ⟨q, hq, hqe⟩ := complexityKeysSubMathTerms p hp
      rw [← hqe]
      exact hnoterms q hq)
  have hacadeq : get_academic_level_boost c' = get_academic_level_boost c :=
    academicBoostCongr c c' hurl hacad
  have hdepth := depthBoostMono c c' hnoterms hresearch hsym hdollar hbslash
  rw [hterms1, hcplx1, hacadeq]
  refine min_le_min ?_ (le_refl 1)
  refine mul_le_mul_of_nonneg_left ?_ hscore
  have h1 := sourceBoostGeOne c.url
  have h2 : (0 : ℚ) ≤ (if c.math_content_detected then (115/100 : ℚ) else 1) := by
    split <;> norm_num
  have h3 := mathTermsBoostGeOne (textOf c)
  have h4 := depthBoostGeOne (textOf c)
  have h4' := depthBoostGeOne (textOf c')
  have h5 := complexityBoostGeOne (textOf c)
  have h6 := academicBoostGeClamp c
  set src := get_source_boost c.url
  set mcb := (if c.math_content_detected then (115/100 : ℚ) else 1)
  set terms := get_math_terms_boost (textOf c)
  set dep := get_math_domain_depth_boost (textOf c)
  set dep' := get_math_domain_depth_boost (textOf c')
  set cplx := calculate_mathematical_complexity_score (textOf c)
  set acad := get_academic_level_boost c
  calc src * mcb * 1 * dep' * 1 * acad = (src * mcb) * dep' * acad := by ring
    _ ≤ (src * mcb) * dep * acad := by
        refine mul_le_mul_of_nonneg_right (mul_le_mul_of_nonneg_left hdepth ?_) ?_
        · exact mul_nonneg (by linarith) h2
        · linarith
    _ ≤ (src * mcb) * dep * acad * (terms * cplx) := by
        refine le_mul_of_one_le_right ?_ (oneLeMulQ h3 h5)
        have hsm : (0 : ℚ) ≤ src * mcb := mul_nonneg (by linarith) h2
        have hd : (0 : ℚ) ≤ dep := by linarith
        have hc : (0 : ℚ) ≤ acad := by linarith
        positivity
    _ = src * mcb * terms * dep * cplx * acad := by ring

set_option maxRecDepth 10000 in
/-- Witness for the amended C6 at a concrete pair: snippet `"algebra research"`
strips to `" research"`, which introduces no new indicator occurrences, and the
stripped candidate's boosted score is indeed no larger. -/
theorem boost_ge_stripped_witness :
    ((⟨"t", "u", " research", "w", 1/2, 0, false⟩ : SearchResult).snippet.toList
        = strip_math_terms ("algebra research".toList)) ∧
    (∃ p ∈ mathTermsWeightsL,
        containsSub p.1 (lowerText ("algebra research".toList)) = true) ∧
    (∀ b' ∈ apply_math_domain_boost
        [(⟨"t", "u", " research", "w", 1/2, 0, false⟩ : SearchResult)],
      ∀ b ∈ apply_math_domain_boost
        [(⟨"t", "u", "algebra research", "w", 1/2, 0, false⟩ : SearchResult)],
        b'.relevance_score ≤ b.relevance_score) :=
  ⟨by with_unfolding_all decide, by with_unfolding_all decide,
   boost_ge_stripped ⟨"t", "u", "algebra research", "w", 1/2, 0, false⟩
     ⟨"t", "u", " research", "w", 1/2, 0, false⟩
     (by with_unfolding_all decide) rfl rfl rfl rfl rfl rfl
     (by with_unfolding_all decide)
     (by with_unfolding_all decide)
     (by with_unfolding_all decide)
     (by with_unfolding_all decide)
     (by with_unfolding_all decide)
     (by with_unfolding_all decide)
     (by with_unfolding_all decide)
     (by with_unfolding_all decide)⟩

/-- Witness for C4 at a concrete singleton list and index 0. -/
theorem apply_math_domain_boost_frame_witness :
    ((0 : ℕ) < (apply_math_domain_boost
        [(⟨"t", "u", "s", "w", 1/2, 0, false⟩ : SearchResult)]).length ∧
      (0 : ℕ) < [(⟨"t", "u", "s", "w", 1/2, 0, false⟩ : SearchResult)].length) ∧
    ((apply_math_domain_boost [(⟨"t", "u", "s", "w", 1/2, 0, false⟩ : SearchResult)]).get
        ⟨0, by with_unfolding_all decide⟩).url
      = ([(⟨"t", "u", "s", "w", 1/2, 0, false⟩ : SearchResult)].get ⟨0, by decide⟩).url :=
  ⟨⟨by with_unfolding_all decide, by decide⟩,
   ((apply_math_domain_boost_frame [⟨"t", "u", "s", "w", 1/2, 0, false⟩]).2 0
     (by with_unfolding_all decide) (by decide)).2.1⟩

/-- Witness for C5 at a concrete singleton list and index 0. -/
theorem metrics_final_score_eq_boost_witness :
    ((0 : ℕ) < (get_advanced_sorting_metrics
        [(⟨"t", "u", "s", "w", 1/2, 0, false⟩ : SearchResult)]).length ∧
      (0 : ℕ) < (apply_math_domain_boost
        [(⟨"t", "u", "s", "w", 1/2, 0, false⟩ : SearchResult)]).length ∧
      (0 : ℕ) < [(⟨"t", "u", "s", "w", 1/2, 0, false⟩ : SearchResult)].length) ∧
    ((get_advanced_sorting_metrics
        [(⟨"t", "u", "s", "w", 1/2, 0, false⟩ : SearchResult)]).get
        ⟨0, by with_unfolding_all decide⟩).final_score
      = ((apply_math_domain_boost [(⟨"t", "u", "s", "w", 1/2, 0, false⟩ : SearchResult)]).get
        ⟨0, by with_unfolding_all decide⟩).relevance_score :=
  ⟨⟨by with_unfolding_all decide, by with_unfolding_all decide, by decide⟩,
   (metrics_final_score_eq_boost [⟨"t", "u", "s", "w", 1/2, 0, false⟩] 0
     (by with_unfolding_all decide) (by with_unfolding_all decide) (by decide)).1⟩
